import Mathlib

/-!
Verification of the Kanban task-board persistence and workflow layer.

The definitions below are a shallow embedding of the Python sources:
Database.py (KanbanRepository, UserService), KanbanInfoDatabase.py
(Task.validate, KanbanRepository.add_task), userrepository.py
(UserRepository.create_user and the USER schema default), Notification.py
(TaskAnalysisService), and Login.py (SystemConfig.ADMIN_VALIDATION_KEY_HASH).
The SQLite store is modelled as a list of rows; SQL statements are modelled
by the list transformations they perform; the current wall-clock time is an
explicit parameter; exceptions are modelled by outcome types (a raised
exception rolls the transaction back, so the error outcomes carry no store).
-/

namespace Kanban

/-- The four-value status enum shared by every rewrite
(TaskStatus in Database.py, KanbanInfoDatabase.py, DataStructures.py). -/
def validStatuses : List String := ["To-Do", "In Progress", "Waiting Review", "Finished"]

/-- TaskStatus.is_valid_status. -/
def is_valid_status (s : String) : Bool := validStatuses.contains s

/-- Gregorian leap-year rule, as used by Python datetime. -/
def isLeapYear (y : Nat) : Bool := y % 4 == 0 && (y % 100 != 0 || y % 400 == 0)

/-- Number of days in a month of a given year. -/
def daysInMonth (y m : Nat) : Nat :=
  if m == 2 then (if isLeapYear y then 29 else 28)
  else if m == 4 || m == 6 || m == 9 || m == 11 then 30
  else 31

/-- A calendar date. -/
structure Date where
  year : Nat
  month : Nat
  day : Nat
deriving DecidableEq

/-- Split a character list at every dash, keeping empty segments (the
behaviour of str.split for a one-character separator). -/
def splitDash (cs : List Char) : List (List Char) :=
  cs.foldr
    (fun c acc =>
      if c = '-' then [] :: acc
      else
        match acc with
        | a :: rest => (c :: a) :: rest
        | [] => [[c]])
    [[]]

/-- Nonempty run of ASCII digits. -/
def digitsOnly (cs : List Char) : Bool := !cs.isEmpty && cs.all Char.isDigit

/-- Numeric value of a run of ASCII digits. -/
def digitsToNat (cs : List Char) : Nat :=
  cs.foldl (fun n c => n * 10 + (c.toNat - 48)) 0

/-- Python str.strip: drop leading and trailing whitespace. -/
def pyStrip (s : String) : String :=
  String.mk (((s.data.dropWhile Char.isWhitespace).reverse.dropWhile Char.isWhitespace).reverse)

/-- Python str.lower on ASCII identifiers. -/
def lowerStr (s : String) : String := String.mk (s.data.map Char.toLower)

/-- datetime.strptime(s, "%Y-%m-%d"): the year is exactly 4 digits, month and
day are 1 or 2 digits, the month is 1..12, the day fits the month, and the
year is at least 1 (Python datetime rejects year 0). -/
def parseDate (s : String) : Option Date :=
  match splitDash s.data with
  | [y, m, d] =>
    if digitsOnly y && y.length == 4 && digitsOnly m && m.length ≤ 2
        && digitsOnly d && d.length ≤ 2 then
      let yn := digitsToNat y
      let mn := digitsToNat m
      let dn := digitsToNat d
      if 1 ≤ yn && 1 ≤ mn && mn ≤ 12 && 1 ≤ dn && dn ≤ daysInMonth yn mn then
        some ⟨yn, mn, dn⟩
      else none
    else none
  | _ => none

/-- Rata-die style day count for a civil date (civil-from-days algorithm);
date comparison and date subtraction in the Python code are modelled through
this count. -/
def dayNumber (dt : Date) : Nat :=
  let y := if dt.month ≤ 2 then dt.year - 1 else dt.year
  let era := y / 400
  let yoe := y % 400
  let mp := if dt.month > 2 then dt.month - 3 else dt.month + 9
  let doy := (153 * mp + 2) / 5 + (dt.day - 1)
  let doe := yoe * 365 + yoe / 4 - yoe / 100 + doy
  era * 146097 + doe

/-- One row of the KANBAN table (schema in Database.py and
KanbanInfoDatabase.py: ID, Title, Status, PersonInCharge, CreationDate,
DueDate, Creator, Editors, AdditionalInfo, LastModified, Version, IsActive). -/
structure TaskRow where
  id : Nat
  title : String
  status : String
  personInCharge : Int
  creationDate : String
  dueDate : String
  creator : Int
  editors : Option Int
  additionalInfo : String
  lastModified : String
  version : Nat
  isActive : Bool
deriving DecidableEq

namespace Notif

/-- TaskAnalysisService.calculate_task_priority (Notification.py). -/
def calculate_task_priority (daysUntilDue : Int) : String :=
  if daysUntilDue ≤ 1 then "high"
  else if daysUntilDue ≤ 3 then "medium"
  else "low"

/-- TaskAnalysisService.format_time_remaining (Notification.py); the Python
f-string appends the plural "s" only when the quotient is greater than 1. -/
def format_time_remaining (daysUntilDue : Int) : String :=
  if daysUntilDue = 0 then "Due today"
  else if daysUntilDue = 1 then "Due tomorrow"
  else if daysUntilDue < 7 then "Due in " ++ toString daysUntilDue ++ " days"
  else if daysUntilDue < 30 then
    "Due in " ++ toString (Int.fdiv daysUntilDue 7)
      ++ (if Int.fdiv daysUntilDue 7 > 1 then " weeks" else " week")
  else
    "Due in " ++ toString (Int.fdiv daysUntilDue 30)
      ++ (if Int.fdiv daysUntilDue 30 > 1 then " months" else " month")

/-- The spec sentence for the remaining-time format, taken literally:
always the plural forms "weeks" and "months" (integer division, no
rounding). Used to compare the code against the specified strings. -/
def formatTimeRemainingSpec (daysUntilDue : Int) : String :=
  if daysUntilDue = 0 then "Due today"
  else if daysUntilDue = 1 then "Due tomorrow"
  else if daysUntilDue < 7 then "Due in " ++ toString daysUntilDue ++ " days"
  else if daysUntilDue < 30 then "Due in " ++ toString (Int.fdiv daysUntilDue 7) ++ " weeks"
  else "Due in " ++ toString (Int.fdiv daysUntilDue 30) ++ " months"

/-- The remaining-time format with the pluralisation the code actually
performs, written as a case split from largest range to smallest. -/
def formatTimeRemainingAmended (d : Int) : String :=
  if 30 ≤ d then
    if 2 ≤ Int.fdiv d 30 then "Due in " ++ toString (Int.fdiv d 30) ++ " months"
    else "Due in " ++ toString (Int.fdiv d 30) ++ " month"
  else if 7 ≤ d then
    if 2 ≤ Int.fdiv d 7 then "Due in " ++ toString (Int.fdiv d 7) ++ " weeks"
    else "Due in " ++ toString (Int.fdiv d 7) ++ " week"
  else if 2 ≤ d then "Due in " ++ toString d ++ " days"
  else if d = 1 then "Due tomorrow"
  else "Due today"

/-- The WHERE clause of the upcoming-tasks query in
TaskAnalysisService.get_upcoming_tasks: DueDate nonempty and Status not
Finished. Note there is no IsActive condition in the SQL. -/
def upcomingSqlFilter (r : TaskRow) : Bool :=
  r.dueDate ≠ "" && r.status ≠ "Finished"

/-- Stable insertion for the ORDER BY DueDate ASC clause. -/
def insertByDue (r : TaskRow) : List TaskRow → List TaskRow
  | [] => [r]
  | x :: xs => if x.dueDate ≤ r.dueDate then x :: insertByDue r xs else r :: x :: xs

/-- ORDER BY DueDate ASC (SQLite compares TEXT bytewise, which on these
digit-and-dash strings agrees with lexicographic string order). -/
def sortByDue : List TaskRow → List TaskRow
  | [] => []
  | x :: xs => insertByDue x (sortByDue xs)

/-- The per-row body of the scan loop in get_upcoming_tasks: parse the due
date (a row that fails to parse is logged and skipped), then keep the row
when today <= due <= today + daysAhead, recording days_until_due. -/
def upcomingEntry (today : Date) (daysAhead : Nat) (r : TaskRow) : Option (TaskRow × Nat) :=
  (parseDate r.dueDate).bind fun due =>
    if dayNumber today ≤ dayNumber due && dayNumber due ≤ dayNumber today + daysAhead then
      some (r, dayNumber due - dayNumber today)
    else none

/-- TaskAnalysisService.get_upcoming_tasks (Notification.py): run the SQL
query, then apply the scan loop to every returned row. -/
def get_upcoming_tasks (store : List TaskRow) (today : Date) (daysAhead : Nat) :
    List (TaskRow × Nat) :=
  (sortByDue (store.filter upcomingSqlFilter)).filterMap (upcomingEntry today daysAhead)

end Notif

namespace DB

/-- A value supplied for one field of a partial update (Python passes
strings, ints, or None through the kwargs dict into the SQL parameters). -/
inductive FieldValue where
  | str (s : String)
  | int (n : Int)
  | null
deriving DecidableEq

/-- A partial-update map: the kwargs dict of update_task, in insertion
order. Python dict keys are unique; no claim exercises duplicate keys. -/
abbrev Updates := List (String × FieldValue)

/-- The valid_fields set of KanbanRepository.update_task (identical in
Database.py:432 and KanbanInfoDatabase.py:401). -/
def valid_fields : List String :=
  ["title", "status", "person_in_charge", "due_date", "additional_info", "editors", "is_active"]

/-- Column names of the KANBAN table. -/
def kanbanColumns : List String :=
  ["ID", "Title", "Status", "PersonInCharge", "CreationDate", "DueDate", "Creator",
   "Editors", "AdditionalInfo", "LastModified", "Version", "IsActive"]

/-- SQLite resolves an unquoted identifier in a SET clause against the
column names case-insensitively (underscores are significant): of the
valid_fields only title, status and editors resolve; person_in_charge,
due_date, additional_info and is_active hit no column and the UPDATE
statement raises an OperationalError. -/
def resolvesToColumn (field : String) : Bool :=
  kanbanColumns.any (fun c => lowerStr c == lowerStr field)

/-- Dictionary lookup in the update map. -/
def lookupField (updates : Updates) (k : String) : Option FieldValue :=
  (updates.find? (fun kv => kv.1 == k)).map Prod.snd

/-- TaskStatus.is_valid_status applied to the raw value of the status key:
a membership test in a list of strings, so any non-string value is
invalid. -/
def statusValueValid : FieldValue → Bool
  | .str s => is_valid_status s
  | _ => false

/-- Effect of one resolvable SET assignment on a row. Ill-typed
combinations (for example an integer bound to Title) are stored by SQLite
under its dynamic typing; no claim exercises them and they leave the row
unchanged here. -/
def applyField (r : TaskRow) : String × FieldValue → TaskRow
  | ("title", .str s) => { r with title := s }
  | ("status", .str s) => { r with status := s }
  | ("editors", .int n) => { r with editors := some n }
  | ("editors", .null) => { r with editors := none }
  | _ => r

/-- Outcome of KanbanRepository.update_task. A ValueError is raised before
the connection is opened; an OperationalError inside the connection is
rolled back by the context manager and surfaces as DatabaseError. In both
cases the table is unchanged, so the error outcomes carry no store. -/
inductive UpdateOutcome where
  | ok (store : List TaskRow) (success : Bool)
  | valueError (msg : String)
  | databaseError (msg : String)
deriving DecidableEq

/-- The store visible after the call: the new store on the ok path, the
original store when an exception rolled the transaction back. -/
def storeAfterUpdate (orig : List TaskRow) : UpdateOutcome → List TaskRow
  | .ok s _ => s
  | _ => orig

/-- The row transformation of the UPDATE statement: apply the SET pairs,
then LastModified = now and Version = Version + 1. -/
def updateRow (updates : Updates) (now : String) (r : TaskRow) : TaskRow :=
  { updates.foldl applyField r with lastModified := now, version := r.version + 1 }

/-- KanbanRepository.update_task (Database.py:417-467; the body in
KanbanInfoDatabase.py:386-438 is identical): an empty update map returns
True at once; a key outside valid_fields raises ValueError; a status key
whose value is not one of the four enum values raises ValueError; then the
single UPDATE ... WHERE ID = ? runs, raising on an unresolvable column
name, and returns False when no row matched. -/
def update_task (store : List TaskRow) (task_id : Nat) (updates : Updates)
    (now : String) : UpdateOutcome :=
  if updates.isEmpty then .ok store true
  else
    match updates.find? (fun kv => !(valid_fields.contains kv.1)) with
    | some kv => .valueError ("Invalid field for update: " ++ kv.1)
    | none =>
      if (lookupField updates "status").all statusValueValid then
        if updates.all (fun kv => resolvesToColumn kv.1) then
          let store' := store.map (fun r => if r.id == task_id then updateRow updates now r else r)
          let rowcount := (store.filter (fun r => r.id == task_id)).length
          .ok store' (rowcount != 0)
        else .databaseError "no such column"
      else
        match lookupField updates "status" with
        | some (.str s) => .valueError ("Invalid status: " ++ s)
        | _ => .valueError "Invalid status"

/-- KanbanRepository.get_task_by_id (Database.py:356-380): SELECT * FROM
KANBAN WHERE ID = ? AND IsActive = 1, first match. -/
def get_task_by_id (store : List TaskRow) (task_id : Nat) : Option TaskRow :=
  store.find? (fun r => r.id == task_id && r.isActive)

/-- KanbanRepository.delete_task (Database.py:469-506): the existence check
goes through get_task_by_id, which excludes inactive rows; soft delete sets
IsActive = 0 and LastModified, hard delete removes the row; the return
value is rowcount > 0. -/
def delete_task (store : List TaskRow) (task_id : Nat) (soft_delete : Bool)
    (now : String) : List TaskRow × Bool :=
  match get_task_by_id store task_id with
  | none => (store, false)
  | some _ =>
    let rowcount := (store.filter (fun r => r.id == task_id)).length
    if soft_delete then
      (store.map (fun r =>
        if r.id == task_id then { r with isActive := false, lastModified := now } else r),
       rowcount != 0)
    else
      (store.filter (fun r => !(r.id == task_id)), rowcount != 0)

/-- Outcome of an add-task call: the validation errors are raised before
the INSERT, so the error outcome carries no store. -/
inductive AddOutcome where
  | ok (store : List TaskRow) (task_id : Nat)
  | valueError (msg : String)
deriving DecidableEq

/-- The store visible after an add-task call. -/
def storeAfterAdd (orig : List TaskRow) : AddOutcome → List TaskRow
  | .ok s _ => s
  | _ => orig

/-- AUTOINCREMENT id for a fresh row. -/
def nextTaskId (store : List TaskRow) : Nat :=
  (store.map TaskRow.id).foldr max 0 + 1

/-- KanbanRepository.add_task (Database.py:292-354): a chain of checks each
raising ValueError at the FIRST violated rule, then the INSERT. Foreign-key
enforcement against the USER table is outside the modelled store; no claim
depends on it. -/
def add_task (store : List TaskRow) (title stat : String) (person_in_charge : Int)
    (due_date : String) (creator : Int) (additional_info : String)
    (now : String) : AddOutcome :=
  if pyStrip title == "" then .valueError "Task title cannot be empty"
  else if (pyStrip title).data.length > 200 then .valueError "Task title cannot exceed 200 characters"
  else if !is_valid_status stat then .valueError ("Invalid status: " ++ stat)
  else if person_in_charge ≤ 0 then .valueError "Person in charge must be a positive integer"
  else if creator ≤ 0 then .valueError "Creator must be a positive integer"
  else if (parseDate due_date).isNone then .valueError "Due date must be in YYYY-MM-DD format"
  else
    let tid := nextTaskId store
    .ok (store ++ [{ id := tid, title := pyStrip title, status := stat,
                     personInCharge := person_in_charge, creationDate := now,
                     dueDate := due_date, creator := creator, editors := none,
                     additionalInfo := additional_info, lastModified := now,
                     version := 1, isActive := true }]) tid

end DB

namespace KInfo

/-- The Task dataclass of KanbanInfoDatabase.py. -/
structure KTask where
  task_id : Option Nat
  title : String
  status : String
  person_in_charge : Int
  creation_date : String
  due_date : String
  creator : Int
  editors : Option Int
  additional_info : String
deriving DecidableEq

/-- Task.validate (KanbanInfoDatabase.py:97-123): collects EVERY violated
rule into a list of error strings, in source order. The length check uses
the unstripped title; the status message carries the offending value (the
suffix listing the enum is omitted here). -/
def KTask.validate (t : KTask) : List String :=
  (if pyStrip t.title == "" then ["Task title cannot be empty"]
   else if t.title.data.length > 200 then ["Task title cannot exceed 200 characters"] else [])
  ++ (if !is_valid_status t.status then ["Invalid status: " ++ t.status] else [])
  ++ (if t.person_in_charge ≤ 0 then ["Person in charge must be a positive integer"] else [])
  ++ (if t.creator ≤ 0 then ["Creator must be a positive integer"] else [])
  ++ (match t.editors with
      | some e => if e ≤ 0 then ["Editors must be a positive integer or None"] else []
      | none => [])
  ++ (if (parseDate t.due_date).isNone then ["Due date must be in YYYY-MM-DD format"] else [])

/-- KanbanRepository.add_task (KanbanInfoDatabase.py:282-324): validate the
whole Task first and raise one ValueError joining every violated rule;
only a task with no errors reaches the INSERT. -/
def add_task (store : List TaskRow) (t : KTask) (now : String) : DB.AddOutcome :=
  if t.validate.isEmpty then
    let tid := DB.nextTaskId store
    .ok (store ++ [{ id := tid, title := t.title, status := t.status,
                     personInCharge := t.person_in_charge, creationDate := t.creation_date,
                     dueDate := t.due_date, creator := t.creator, editors := none,
                     additionalInfo := t.additional_info, lastModified := now,
                     version := 1, isActive := true }]) tid
  else .valueError ("Invalid task data: " ++ String.intercalate "; " t.validate)

end KInfo

namespace SHA256

/-- The 64 SHA-256 round constants. -/
def roundConsts : List Nat :=
  [1116352408, 1899447441, 3049323471, 3921009573, 961987163,
   1508970993, 2453635748, 2870763221, 3624381080, 310598401,
   607225278, 1426881987, 1925078388, 2162078206, 2614888103,
   3248222580, 3835390401, 4022224774, 264347078, 604807628,
   770255983, 1249150122, 1555081692, 1996064986, 2554220882,
   2821834349, 2952996808, 3210313671, 3336571891, 3584528711,
   113926993, 338241895, 666307205, 773529912, 1294757372,
   1396182291, 1695183700, 1986661051, 2177026350, 2456956037,
   2730485921, 2820302411, 3259730800, 3345764771, 3516065817,
   3600352804, 4094571909, 275423344, 430227734, 506948616,
   659060556, 883997877, 958139571, 1322822218, 1537002063,
   1747873779, 1955562222, 2024104815, 2227730452, 2361852424,
   2428436474, 2756734187, 3204031479, 3329325298]

/-- The initial hash state. -/
def initState : List Nat :=
  [1779033703, 3144134277, 1013904242, 2773480762, 1359893119,
   2600822924, 528734635, 1541459225]

/-- Truncation to a 32-bit word. -/
def w32 (x : Nat) : Nat := x % 4294967296

/-- Right rotation of a 32-bit word. -/
def rotr (n x : Nat) : Nat := w32 ((x >>> n) ||| (x <<< (32 - n)))

def bigSigma0 (x : Nat) : Nat := (rotr 2 x) ^^^ (rotr 13 x) ^^^ (rotr 22 x)

def bigSigma1 (x : Nat) : Nat := (rotr 6 x) ^^^ (rotr 11 x) ^^^ (rotr 25 x)

def smallSigma0 (x : Nat) : Nat := (rotr 7 x) ^^^ (rotr 18 x) ^^^ (x >>> 3)

def smallSigma1 (x : Nat) : Nat := (rotr 17 x) ^^^ (rotr 19 x) ^^^ (x >>> 10)

def ch (x y z : Nat) : Nat := (x &&& y) ^^^ ((x ^^^ 0xffffffff) &&& z)

def maj (x y z : Nat) : Nat := (x &&& y) ^^^ (x &&& z) ^^^ (y &&& z)

/-- Next word of the message schedule from the window of the previous 16
words, most recent first. -/
def nextW (window : List Nat) : Nat :=
  w32 (smallSigma1 (window.getD 1 0) + window.getD 6 0
        + smallSigma0 (window.getD 14 0) + window.getD 15 0)

/-- Produce n further schedule words. -/
def scheduleRest : Nat → List Nat → List Nat
  | 0, _ => []
  | n + 1, window =>
    let w := nextW window
    w :: scheduleRest n ((w :: window).take 16)

/-- The 64-word message schedule of a 16-word block. -/
def schedule (block : List Nat) : List Nat :=
  block ++ scheduleRest 48 block.reverse

/-- One round of the compression function. -/
def compressStep (st : List Nat) (kw : Nat × Nat) : List Nat :=
  match st with
  | [a, b, c, d, e, f, g, h] =>
    let t1 := w32 (h + bigSigma1 e + ch e f g + kw.1 + kw.2)
    let t2 := w32 (bigSigma0 a + maj a b c)
    [w32 (t1 + t2), a, b, c, w32 (d + t1), e, f, g]
  | s => s

/-- Compress one 16-word block into the hash state. -/
def processBlock (h : List Nat) (block : List Nat) : List Nat :=
  let s := ((roundConsts.zip (schedule block)).foldl compressStep h)
  (h.zip s).map (fun p => w32 (p.1 + p.2))

/-- Fold every 16-word block of the padded message into the state. -/
def processBlocks (h : List Nat) : List Nat → List Nat
  | w0 :: w1 :: w2 :: w3 :: w4 :: w5 :: w6 :: w7 ::
    w8 :: w9 :: w10 :: w11 :: w12 :: w13 :: w14 :: w15 :: rest =>
    processBlocks (processBlock h [w0, w1, w2, w3, w4, w5, w6, w7,
                                   w8, w9, w10, w11, w12, w13, w14, w15]) rest
  | _ => h

/-- Big-endian byte list of a value. -/
def toBE (numBytes x : Nat) : List Nat :=
  (List.range numBytes).map (fun i => (x >>> (8 * (numBytes - 1 - i))) % 256)

/-- SHA-256 padding: 0x80, zeros to 56 mod 64, then the 64-bit bit length. -/
def pad (msg : List Nat) : List Nat :=
  let len := msg.length
  let zeros := (64 + 55 - len % 64) % 64
  msg ++ [0x80] ++ List.replicate zeros 0 ++ toBE 8 (8 * len)

/-- Group bytes into big-endian 32-bit words. -/
def toWords : List Nat → List Nat
  | b0 :: b1 :: b2 :: b3 :: rest =>
    (((b0 * 256 + b1) * 256 + b2) * 256 + b3) :: toWords rest
  | _ => []

/-- UTF-8 encoding of one code point. -/
def utf8Char (c : Nat) : List Nat :=
  if c < 0x80 then [c]
  else if c < 0x800 then [0xc0 ||| (c >>> 6), 0x80 ||| (c &&& 0x3f)]
  else if c < 0x10000 then
    [0xe0 ||| (c >>> 12), 0x80 ||| ((c >>> 6) &&& 0x3f), 0x80 ||| (c &&& 0x3f)]
  else
    [0xf0 ||| (c >>> 18), 0x80 ||| ((c >>> 12) &&& 0x3f),
     0x80 ||| ((c >>> 6) &&& 0x3f), 0x80 ||| (c &&& 0x3f)]

/-- str.encode(): the UTF-8 bytes of a string. -/
def utf8Encode (s : String) : List Nat :=
  s.data.foldr (fun ch acc => utf8Char ch.toNat ++ acc) []

/-- Lowercase hex digit. -/
def hexDigit (n : Nat) : Char :=
  if n < 10 then Char.ofNat (48 + n) else Char.ofNat (87 + n)

/-- Eight lowercase hex digits of a 32-bit word. -/
def toHex8 (x : Nat) : List Char :=
  (List.range 8).map (fun i => hexDigit ((x >>> (4 * (7 - i))) % 16))

/-- hashlib.sha256(bytes).hexdigest(). -/
def sha256hex (msg : List Nat) : String :=
  let hs := processBlocks initState (toWords (pad msg))
  String.mk (hs.foldr (fun h acc => toHex8 h ++ acc) [])

end SHA256

/-- UserService.hash_password (Database.py:1022-1036) and
UserRepository.hash_password (userrepository.py:63-73), both named with a
leading underscore in the source: hashlib.sha256(password.encode())
.hexdigest() — a single unsalted SHA-256 of the password, no salt, no cost
factor, the same output on every invocation. -/
def hash_password (password : String) : String :=
  SHA256.sha256hex (SHA256.utf8Encode password)

/-- SystemConfig.ADMIN_VALIDATION_KEY_HASH (Login.py:52), documented in the
source as the sha256 of the word admin. -/
def ADMIN_VALIDATION_KEY_HASH : String :=
  "8c6976e5b5410415bde908bd4dee15dfb167a9c873fc4bb8a81f6f2ab448a918"

/-- One row of the USER table (userrepository.py schema: user_id, PhoneNo
UNIQUE, Name, Position DEFAULT User, PasswordHash, is_active DEFAULT 1,
created_at, last_modified). -/
structure UserRow where
  user_id : Nat
  phoneNo : Int
  name : String
  position : String
  passwordHash : String
  is_active : Bool
  created_at : String
  last_modified : String
deriving DecidableEq

/-- Outcome dictionary of the create_user services: success with the
created row, or a failure with an error message. -/
inductive CreateUserOutcome where
  | success (store : List UserRow) (user : UserRow)
  | failure (error : String)
deriving DecidableEq

/-- The user store visible after a create_user call. -/
def storeAfterCreate (orig : List UserRow) : CreateUserOutcome → List UserRow
  | .success s _ => s
  | .failure _ => orig

/-- AUTOINCREMENT id for a fresh user row. -/
def nextUserId (store : List UserRow) : Nat :=
  (store.map UserRow.user_id).foldr max 0 + 1

namespace UserRepo

/-- The registration dict passed to UserRepository.create_user
(userrepository.py): phone_number, name and password are read with [] (a
missing key raises and surfaces as a failure), position with
.get(position, User). -/
structure RegistrationData where
  phone_number : Option Int
  name : Option String
  position : Option String
  password : Option String
deriving DecidableEq

/-- UserRepository.create_user (userrepository.py:142-222): hash the
password, INSERT (PhoneNo, Name, Position, PasswordHash) — so is_active
takes the schema DEFAULT 1 for every position — and return the created
row; a duplicate phone number violates UNIQUE and fails. -/
def create_user (store : List UserRow) (data : RegistrationData)
    (now : String) : CreateUserOutcome :=
  match data.password, data.phone_number, data.name with
  | some pw, some phone, some nm =>
    if store.any (fun u => u.phoneNo == phone) then
      .failure "User with phone already exists"
    else
      let u : UserRow :=
        { user_id := nextUserId store, phoneNo := phone, name := nm,
          position := (data.position).getD "User",
          passwordHash := hash_password pw,
          is_active := true,
          created_at := now, last_modified := now }
      .success (store ++ [u]) u
  | _, _, _ => .failure "Missing registration data"

end UserRepo

namespace DBUser

/-- The registration dict passed to UserService.create_user (Database.py),
whose required_fields are phone_no, name, position and password. -/
structure UserData where
  phone_no : Option Int
  name : Option String
  position : Option String
  password : Option String
deriving DecidableEq

/-- UserService.create_user (Database.py:784-843): reject a dict missing a
required field, hash the password, and INSERT with the IsActive column set
to the literal 1 for every position; a duplicate phone number violates
UNIQUE and fails. -/
def create_user (store : List UserRow) (data : UserData)
    (now : String) : CreateUserOutcome :=
  match data.phone_no, data.name, data.position, data.password with
  | some phone, some nm, some pos, some pw =>
    if store.any (fun u => u.phoneNo == phone) then
      .failure "User with phone already exists"
    else
      let u : UserRow :=
        { user_id := nextUserId store, phoneNo := phone, name := nm,
          position := pos,
          passwordHash := hash_password pw,
          is_active := true,
          created_at := now, last_modified := now }
      .success (store ++ [u]) u
  | _, _, _, _ => .failure "Missing required field"

end DBUser

/-- Projection used to read the activation flag of a created account. -/
def CreateUserOutcome.activeFlag : CreateUserOutcome → Option Bool
  | .success _ u => some u.is_active
  | .failure _ => none

/-- A concrete task row used in the concrete scenarios below. -/
def sampleRow : TaskRow :=
  { id := 1, title := "Write spec", status := "To-Do", personInCharge := 5551234567,
    creationDate := "2024-06-01T09:00:00", dueDate := "2099-01-01", creator := 5551234567,
    editors := none, additionalInfo := "", lastModified := "2024-06-01T09:00:00",
    version := 1, isActive := true }

/-- A soft-deleted row (IsActive = 0) with a due date inside the
notification window. -/
def ghostRow : TaskRow :=
  { id := 9, title := "Ghost", status := "In Progress", personInCharge := 1,
    creationDate := "", dueDate := "2024-06-01", creator := 1, editors := none,
    additionalInfo := "", lastModified := "", version := 1, isActive := false }

/-- A soft-deleted copy of sampleRow. -/
def inactiveRow : TaskRow := { sampleRow with id := 2, isActive := false }

/-- A partial update carrying a valid field and an invalid status value. -/
def updBogus : DB.Updates :=
  [("title", DB.FieldValue.str "New title"), ("status", DB.FieldValue.str "Bogus")]

/-- A partial update of the title only. -/
def updTitle : DB.Updates := [("title", DB.FieldValue.str "Renamed")]

/-- A partial update of the status only. -/
def updStatus : DB.Updates := [("status", DB.FieldValue.str "In Progress")]

/-- A second status update, issued by a writer still holding version 1. -/
def updStale : DB.Updates := [("status", DB.FieldValue.str "Waiting Review")]

/-- sampleRow after the first status update. -/
def rowAfterA : TaskRow := { sampleRow with status := "In Progress", lastModified := "tA", version := 2 }

/-- rowAfterA after the second, stale status update: silently overwritten. -/
def rowAfterB : TaskRow := { rowAfterA with status := "Waiting Review", lastModified := "tB", version := 3 }

/-- sampleRow after the title-only update. -/
def renamedRow : TaskRow := { sampleRow with title := "Renamed", lastModified := "t2", version := 2 }

/-- A registration for a plain User account (userrepository.py key names). -/
def aliceData : UserRepo.RegistrationData :=
  { phone_number := some 5551234567, name := some "Alice", position := some "User",
    password := some "Passw0rd" }

/-- The row UserRepository.create_user stores for aliceData. -/
def aliceRow : UserRow :=
  { user_id := 1, phoneNo := 5551234567, name := "Alice", position := "User",
    passwordHash := hash_password "Passw0rd", is_active := true,
    created_at := "t", last_modified := "t" }

/-- A registration for a Manager account (Database.py key names). -/
def bobData : DBUser.UserData :=
  { phone_no := some 5559876543, name := some "Bob", position := some "Manager",
    password := some "Secur3Pass" }

/-- The row UserService.create_user stores for bobData. -/
def bobRow : UserRow :=
  { user_id := 1, phoneNo := 5559876543, name := "Bob", position := "Manager",
    passwordHash := hash_password "Secur3Pass", is_active := true,
    created_at := "t", last_modified := "t" }

/-- A task violating two validation rules at once: empty title and a status
outside the enum. -/
def badTask : KInfo.KTask :=
  { task_id := none, title := "", status := "Bogus", person_in_charge := 5551234567,
    creation_date := "", due_date := "2099-01-01", creator := 5551234567,
    editors := none, additional_info := "" }

end Kanban

namespace Kanban

/-- Membership is preserved by one ordered insertion. -/
theorem mem_insertByDue {a r : TaskRow} {l : List TaskRow} :
    a ∈ Notif.insertByDue r l ↔ a = r ∨ a ∈ l := by
  induction l with
  | nil => simp [Notif.insertByDue]
  | cons x xs ih =>
    simp only [Notif.insertByDue]
    split <;> simp only [List.mem_cons, ih] <;> tauto

/-- The ORDER BY clause does not change which rows are returned. -/
theorem mem_sortByDue {a : TaskRow} {l : List TaskRow} :
    a ∈ Notif.sortByDue l ↔ a ∈ l := by
  induction l with
  | nil => simp [Notif.sortByDue]
  | cons x xs ih =>
    simp only [Notif.sortByDue, mem_insertByDue, List.mem_cons, ih]

/-- Characterisation of the rows the scan-loop body keeps. -/
theorem upcomingEntry_eq_some {today : Date} {daysAhead : Nat} {r : TaskRow}
    {p : TaskRow × Nat} :
    Notif.upcomingEntry today daysAhead r = some p ↔
      ∃ due, parseDate r.dueDate = some due ∧
        dayNumber today ≤ dayNumber due ∧ dayNumber due ≤ dayNumber today + daysAhead ∧
        p = (r, dayNumber due - dayNumber today) := by
  simp only [Notif.upcomingEntry, Option.bind_eq_some]
  constructor
  · rintro ⟨due, hdue, hif⟩
    split_ifs at hif with hw
    simp only [Bool.and_eq_true, decide_eq_true_eq] at hw
    exact ⟨due, hdue, hw.1, hw.2, (Option.some.injEq _ _).mp hif.symm⟩
  · rintro ⟨due, hdue, h1, h2, hp⟩
    refine ⟨due, hdue, ?_⟩
    rw [if_pos (by simp only [Bool.and_eq_true, decide_eq_true_eq]; exact ⟨h1, h2⟩), hp]

/-- A SET assignment for any key other than editors leaves the editors
column alone. -/
theorem applyField_editors (r : TaskRow) (kv : String × DB.FieldValue) (hk : kv.1 ≠ "editors") :
    (DB.applyField r kv).editors = r.editors := by
  rcases kv with ⟨k, v⟩
  unfold DB.applyField
  split <;> first | rfl | simp_all

/-- A whole update map without an editors key leaves the editors column
alone. -/
theorem foldl_applyField_editors {updates : DB.Updates} {r : TaskRow}
    (h : ∀ kv ∈ updates, kv.1 ≠ "editors") :
    (updates.foldl DB.applyField r).editors = r.editors := by
  induction updates generalizing r with
  | nil => rfl
  | cons kv rest ih =>
    rw [List.foldl_cons, ih (fun x hx => h x (List.mem_cons_of_mem _ hx))]
    exact applyField_editors r kv (h kv (List.mem_cons_self _ _))

/-- A key absent from the update map differs from every key present. -/
theorem lookupField_none_keys {updates : DB.Updates} {key : String}
    (h : DB.lookupField updates key = none) :
    ∀ kv ∈ updates, kv.1 ≠ key := by
  intro kv hkv hkey
  unfold DB.lookupField at h
  cases hf : updates.find? (fun kv => kv.1 == key) with
  | some x => rw [hf] at h; exact absurd h (by simp)
  | none =>
    rw [List.find?_eq_none] at hf
    have := hf kv hkv
    simp only [beq_iff_eq] at this
    exact this hkey

/-- Mapping a function that fixes every member of a list is the identity. -/
theorem map_eq_self_of {l : List TaskRow} {f : TaskRow → TaskRow}
    (h : ∀ a ∈ l, f a = a) : l.map f = l := by
  induction l with
  | nil => rfl
  | cons x xs ih =>
    rw [List.map_cons, h x (List.mem_cons_self _ _),
        ih (fun a ha => h a (List.mem_cons_of_mem _ ha))]

/-- Normal form of a successful update_task call: the UPDATE statement ran,
transforming exactly the rows whose ID matched, and the returned flag is
rowcount of the WHERE clause being nonzero. -/
theorem update_task_ok_shape (store : List TaskRow) (tid : Nat) (updates : DB.Updates)
    (now : String) (s : List TaskRow) (b : Bool)
    (h : DB.update_task store tid updates now = .ok s b) (hne : updates ≠ []) :
    s = store.map (fun r => if r.id == tid then DB.updateRow updates now r else r) ∧
    b = ((store.filter (fun r => r.id == tid)).length != 0) := by
  have hemp : updates.isEmpty = false := by
    cases updates with
    | nil => exact absurd rfl hne
    | cons a l => rfl
  unfold DB.update_task at h
  rw [hemp] at h
  simp only [Bool.false_eq_true, if_false] at h
  cases hf : updates.find? (fun kv => !(DB.valid_fields.contains kv.1)) with
  | some kv => rw [hf] at h; exact DB.UpdateOutcome.noConfusion h
  | none =>
    rw [hf] at h
    by_cases hst : (DB.lookupField updates "status").all DB.statusValueValid = true
    · rw [if_pos hst] at h
      by_cases hres : updates.all (fun kv => DB.resolvesToColumn kv.1) = true
      · rw [if_pos hres] at h
        injection h with h1 h2
        exact ⟨h1.symm, h2.symm⟩
      · rw [if_neg hres] at h
        exact DB.UpdateOutcome.noConfusion h
    · rw [if_neg hst] at h
      rcases hlk : DB.lookupField updates "status" with _ | v
      · rw [hlk] at h; exact DB.UpdateOutcome.noConfusion h
      · rw [hlk] at h
        cases v <;> exact DB.UpdateOutcome.noConfusion h

/-- Claim C1: for every task id and every partial-update map whose status
entry is invalid (outside the 4-value enum), update_task raises a
ValueError, and since the validation runs before any SQL, the stored data
is completely unchanged: re-fetching any task through get_task_by_id gives
exactly what it gave before the failed call, including the other valid
fields submitted in the same map (no partial commit). -/
theorem c1_update_invalid_status_atomic (store : List TaskRow) (task_id : Nat)
    (updates : DB.Updates) (now : String) (v : DB.FieldValue)
    (hlook : DB.lookupField updates "status" = some v)
    (hbad : DB.statusValueValid v = false) :
    (∃ msg, DB.update_task store task_id updates now = .valueError msg) ∧
    ∀ tid, DB.get_task_by_id (DB.storeAfterUpdate store (DB.update_task store task_id updates now)) tid
        = DB.get_task_by_id store tid := by
  have hne : updates.isEmpty = false := by
    cases updates with
    | nil => simp [DB.lookupField] at hlook
    | cons a l => rfl
  have houtcome : ∃ msg, DB.update_task store task_id updates now = .valueError msg := by
    unfold DB.update_task
    rw [hne]
    simp only [Bool.false_eq_true, if_false]
    cases hf : updates.find? (fun kv => !(DB.valid_fields.contains kv.1)) with
    | some kv => exact ⟨_, rfl⟩
    | none =>
      have hall : (DB.lookupField updates "status").all DB.statusValueValid = false := by
        rw [hlook]
        exact hbad
      rw [if_neg (by rw [hall]; simp)]
      rw [hlook]
      cases v with
      | str s => exact ⟨_, rfl⟩
      | int n => exact ⟨_, rfl⟩
      | null => exact ⟨_, rfl⟩
  obtain ⟨msg, hmsg⟩ := houtcome
  refine ⟨⟨msg, hmsg⟩, ?_⟩
  intro tid
  rw [hmsg]
  rfl

/-- Claim C1 witness: a concrete map updating the title together with the
status value Bogus fails with ValueError and leaves the store as it was. -/
theorem c1_witness :
    DB.lookupField updBogus "status" = some (DB.FieldValue.str "Bogus") ∧
    DB.statusValueValid (DB.FieldValue.str "Bogus") = false ∧
    ((∃ msg, DB.update_task [sampleRow] 1 updBogus "t2" = .valueError msg) ∧
      ∀ tid, DB.get_task_by_id
          (DB.storeAfterUpdate [sampleRow] (DB.update_task [sampleRow] 1 updBogus "t2")) tid
        = DB.get_task_by_id [sampleRow] tid) :=
  ⟨by decide, by decide,
   c1_update_invalid_status_atomic [sampleRow] 1 updBogus "t2"
     (DB.FieldValue.str "Bogus") (by decide) (by decide)⟩

/-- Claim C2: update_task performs no optimistic-lock check at all. Two
writers who both read the task at version 1 both commit successfully (the
function returns True both times); the second, stale write silently
overwrites the first and merely bumps Version to 3. No ConflictError
outcome exists anywhere in the code, although the schema maintains a
Version column for exactly this purpose and the docstring of the identical
rewrite in KanbanInfoDatabase.py promises optimistic locking. -/
theorem c2_no_conflict_check :
    DB.update_task [sampleRow] 1 updStatus "tA" = .ok [rowAfterA] true ∧
    DB.update_task [rowAfterA] 1 updStale "tB" = .ok [rowAfterB] true ∧
    sampleRow.version = 1 ∧ rowAfterB.status = "Waiting Review" ∧ rowAfterB.version = 3 := by
  decide

/-- Claim C3 counterexample: a successful title-only update. The call
returns True and stamps LastModified, but the editors column of the
re-fetched row is still NULL: update_task has no editor argument and never
stamps the calling editor, refuting "always stamps editors=editorPhone". -/
theorem c3_counterexample :
    DB.update_task [sampleRow] 1 updTitle "t2" = .ok [renamedRow] true ∧
    renamedRow.editors = none ∧ sampleRow.editors = none := by decide

/-- Claim C3 amended: every row touched by a successful update has
last_modified set to now and its version incremented; the editors column
changes only when the update map explicitly contains an editors key (there
is no editor parameter to stamp); and an update whose fields are all valid
and resolvable returns false when no row has the requested id. -/
theorem c3_amended_update_contract :
    (∀ store tid (updates : DB.Updates) now s b,
        DB.update_task store tid updates now = .ok s b → updates ≠ [] →
        ∀ r ∈ s, r.id = tid →
          r.lastModified = now ∧ ∃ r₀ ∈ store, r₀.id = tid ∧ r.version = r₀.version + 1) ∧
    (∀ (updates : DB.Updates) (r : TaskRow), DB.lookupField updates "editors" = none →
        (updates.foldl DB.applyField r).editors = r.editors) ∧
    (∀ store tid (updates : DB.Updates) now, updates ≠ [] →
        (∀ kv ∈ updates, DB.valid_fields.contains kv.1 = true) →
        (∀ kv ∈ updates, DB.resolvesToColumn kv.1 = true) →
        (DB.lookupField updates "status").all DB.statusValueValid = true →
        (∀ r ∈ store, r.id ≠ tid) →
        DB.update_task store tid updates now = .ok store false) := by
  refine ⟨?_, ?_, ?_⟩
  · intro store tid updates now s b h hne r hr hrid
    obtain ⟨hs, hb⟩ := update_task_ok_shape store tid updates now s b h hne
    subst hs
    obtain ⟨r₀, hr₀, hfr₀⟩ := List.mem_map.mp hr
    by_cases hid : (r₀.id == tid) = true
    · rw [if_pos hid] at hfr₀
      subst hfr₀
      exact ⟨rfl, r₀, hr₀, by simpa using hid, rfl⟩
    · rw [if_neg hid] at hfr₀
      subst hfr₀
      exact absurd hrid (by simpa using hid)
  · intro updates r h
    exact foldl_applyField_editors (lookupField_none_keys h)
  · intro store tid updates now hne hvalid hres hstat hmiss
    have hemp : updates.isEmpty = false := by
      cases updates with
      | nil => exact absurd rfl hne
      | cons a l => rfl
    have hfnone : updates.find? (fun kv => !(DB.valid_fields.contains kv.1)) = none := by
      rw [List.find?_eq_none]
      intro kv hkv hcon
      rw [hvalid kv hkv] at hcon
      simp at hcon
    have hallres : updates.all (fun kv => DB.resolvesToColumn kv.1) = true := by
      rw [List.all_eq_true]
      exact hres
    have hmap : store.map (fun r => if r.id == tid then DB.updateRow updates now r else r)
        = store := by
      apply map_eq_self_of
      intro a ha
      rw [if_neg (by simpa using hmiss a ha)]
    have hfil : store.filter (fun r => r.id == tid) = [] := by
      rw [List.filter_eq_nil_iff]
      intro a ha
      simpa using hmiss a ha
    unfold DB.update_task
    rw [hemp]
    simp only [Bool.false_eq_true, if_false]
    rw [hfnone, if_pos hstat, if_pos hallres, hmap, hfil]
    rfl

/-- Claim C3 witness: the contract instantiated on concrete stores — a
status update stamping LastModified and Version, a title-only map leaving
editors untouched, and an update of a missing id returning false. -/
theorem c3_witness :
    (DB.update_task [sampleRow] 1 updStatus "tA" = .ok [rowAfterA] true ∧ updStatus ≠ [] ∧
      ∀ r ∈ [rowAfterA], r.id = 1 →
        r.lastModified = "tA" ∧ ∃ r₀ ∈ [sampleRow], r₀.id = 1 ∧ r.version = r₀.version + 1) ∧
    (DB.lookupField updTitle "editors" = none ∧
      (updTitle.foldl DB.applyField sampleRow).editors = sampleRow.editors) ∧
    (updTitle ≠ [] ∧ (∀ kv ∈ updTitle, DB.valid_fields.contains kv.1 = true) ∧
      (∀ kv ∈ updTitle, DB.resolvesToColumn kv.1 = true) ∧
      (DB.lookupField updTitle "status").all DB.statusValueValid = true ∧
      (∀ r ∈ [sampleRow], r.id ≠ 99) ∧
      DB.update_task [sampleRow] 99 updTitle "tX" = .ok [sampleRow] false) :=
  ⟨⟨by decide, by decide,
    c3_amended_update_contract.1 [sampleRow] 1 updStatus "tA" [rowAfterA] true
      (by decide) (by decide)⟩,
   ⟨by decide, c3_amended_update_contract.2.1 updTitle sampleRow (by decide)⟩,
   ⟨by decide, by decide, by decide, by decide, by decide,
    c3_amended_update_contract.2.2 [sampleRow] 99 updTitle "tX"
      (by decide) (by decide) (by decide) (by decide) (by decide)⟩⟩

/-- Claim C4 counterexample: a soft-deleted task (IsActive = 0) due today
is returned by the upcoming-tasks scan, because the SQL filters only on
DueDate and Status and never on IsActive; this refutes "exactly the tasks
that are active". -/
theorem c4_counterexample :
    Notif.get_upcoming_tasks [ghostRow] ⟨2024, 6, 1⟩ 7 = [(ghostRow, 0)] ∧
    ghostRow.isActive = false := by decide

/-- Claim C4 amended: for every daysAhead, the upcoming-notifications query
returns exactly the tasks — active or soft-deleted alike — whose due date
is nonempty, whose status is not Finished, and whose due date parses and
lies within the inclusive window, with days_until_due the day difference;
tasks whose due_date does not parse are skipped without aborting the
scan. -/
theorem c4_amended_membership (store : List TaskRow) (today : Date) (daysAhead : Nat)
    (r : TaskRow) (n : Nat) :
    (r, n) ∈ Notif.get_upcoming_tasks store today daysAhead ↔
      r ∈ store ∧ r.dueDate ≠ "" ∧ r.status ≠ "Finished" ∧
      ∃ due, parseDate r.dueDate = some due ∧
        dayNumber today ≤ dayNumber due ∧ dayNumber due ≤ dayNumber today + daysAhead ∧
        n = dayNumber due - dayNumber today := by
  unfold Notif.get_upcoming_tasks
  rw [List.mem_filterMap]
  constructor
  · rintro ⟨a, ha, hfa⟩
    rw [mem_sortByDue, List.mem_filter] at ha
    obtain ⟨hmem, hflt⟩ := ha
    obtain ⟨due, hdue, h1, h2, hp⟩ := upcomingEntry_eq_some.mp hfa
    have hra1 : r = a := congrArg Prod.fst hp
    have hra2 : n = dayNumber due - dayNumber today := congrArg Prod.snd hp
    subst hra1
    simp only [Notif.upcomingSqlFilter, Bool.and_eq_true, decide_eq_true_eq] at hflt
    exact ⟨hmem, hflt.1, hflt.2, due, hdue, h1, h2, hra2⟩
  · rintro ⟨hmem, hd1, hd2, due, hdue, h1, h2, hn⟩
    refine ⟨r, ?_, ?_⟩
    · rw [mem_sortByDue, List.mem_filter]
      refine ⟨hmem, ?_⟩
      simp only [Notif.upcomingSqlFilter, Bool.and_eq_true, decide_eq_true_eq]
      exact ⟨hd1, hd2⟩
    · exact upcomingEntry_eq_some.mpr ⟨due, hdue, h1, h2, by rw [hn]⟩

/-- Claim C5 counterexample: registering a plain User account yields
is_active = true, refuting "is_active defaults to false for every position
other than Admin". -/
theorem c5_counterexample :
    CreateUserOutcome.activeFlag (UserRepo.create_user [] aliceData "t") = some true ∧
    aliceData.position = some "User" :=
  ⟨rfl, rfl⟩

/-- Claim C5 amended: every successfully created account is active,
whatever its position — userrepository.py leaves the column to its schema
DEFAULT 1, and Database.py inserts the literal 1. -/
theorem c5_amended_active_default :
    (∀ store data now s u,
        UserRepo.create_user store data now = CreateUserOutcome.success s u →
        u.is_active = true) ∧
    (∀ store data now s u,
        DBUser.create_user store data now = CreateUserOutcome.success s u →
        u.is_active = true) := by
  constructor
  · intro store data now s u h
    rcases data with ⟨ph, nm, pos, pw⟩
    rcases pw with _ | pw
    · exact absurd h (by simp [UserRepo.create_user])
    rcases ph with _ | ph
    · exact absurd h (by simp [UserRepo.create_user])
    rcases nm with _ | nm
    · exact absurd h (by simp [UserRepo.create_user])
    simp only [UserRepo.create_user] at h
    split_ifs at h with hdup
    simp only [CreateUserOutcome.success.injEq] at h
    obtain ⟨-, hu⟩ := h
    subst hu
    rfl
  · intro store data now s u h
    rcases data with ⟨ph, nm, pos, pw⟩
    rcases ph with _ | ph
    · exact absurd h (by simp [DBUser.create_user])
    rcases nm with _ | nm
    · exact absurd h (by simp [DBUser.create_user])
    rcases pos with _ | pos
    · exact absurd h (by simp [DBUser.create_user])
    rcases pw with _ | pw
    · exact absurd h (by simp [DBUser.create_user])
    simp only [DBUser.create_user] at h
    split_ifs at h with hdup
    simp only [CreateUserOutcome.success.injEq] at h
    obtain ⟨-, hu⟩ := h
    subst hu
    rfl

/-- Claim C5 witness: a User registration and a Manager registration, both
created active. -/
theorem c5_witness :
    (UserRepo.create_user [] aliceData "t" = CreateUserOutcome.success [aliceRow] aliceRow ∧
      aliceRow.is_active = true) ∧
    (DBUser.create_user [] bobData "t" = CreateUserOutcome.success [bobRow] bobRow ∧
      bobRow.is_active = true) :=
  ⟨⟨rfl, c5_amended_active_default.1 [] aliceData "t" [aliceRow] aliceRow rfl⟩,
   ⟨rfl, c5_amended_active_default.2 [] bobData "t" [bobRow] bobRow rfl⟩⟩

/-- Claim C6: for every non-negative day count, the priority bucket is high
exactly when daysUntilDue is at most 1, medium exactly when it is 2 or 3,
and low exactly from 4 on; in particular 0 and 1 map to high, 3 to medium
and 4 to low. -/
theorem c6_priority_buckets (d : Int) (hd : 0 ≤ d) :
    (Notif.calculate_task_priority d = "high" ↔ d ≤ 1) ∧
    (Notif.calculate_task_priority d = "medium" ↔ 2 ≤ d ∧ d ≤ 3) ∧
    (Notif.calculate_task_priority d = "low" ↔ 4 ≤ d) ∧
    Notif.calculate_task_priority 0 = "high" ∧ Notif.calculate_task_priority 1 = "high" ∧
    Notif.calculate_task_priority 3 = "medium" ∧ Notif.calculate_task_priority 4 = "low" := by
  refine ⟨?_, ?_, ?_, by decide, by decide, by decide, by decide⟩ <;>
    (unfold Notif.calculate_task_priority
     split_ifs with h1 h2 <;>
      (constructor <;> intro h <;>
        first
        | rfl
        | omega
        | (exact absurd h (by decide))))

/-- Claim C6 witness: the bucket characterisation applied at 2 days. -/
theorem c6_witness :
    ((0 : Int) ≤ 2) ∧
    ((Notif.calculate_task_priority 2 = "high" ↔ (2 : Int) ≤ 1) ∧
     (Notif.calculate_task_priority 2 = "medium" ↔ (2 : Int) ≤ 2 ∧ (2 : Int) ≤ 3) ∧
     (Notif.calculate_task_priority 2 = "low" ↔ (4 : Int) ≤ 2) ∧
     Notif.calculate_task_priority 0 = "high" ∧ Notif.calculate_task_priority 1 = "high" ∧
     Notif.calculate_task_priority 3 = "medium" ∧ Notif.calculate_task_priority 4 = "low") :=
  ⟨by decide, c6_priority_buckets 2 (by decide)⟩

/-- Claim C7 counterexample: at 7 days the code prints the singular form
Due in 1 week, while the specified string (integer division, plural
always) would be Due in 1 weeks. -/
theorem c7_counterexample :
    Notif.format_time_remaining 7 = "Due in 1 week" ∧
    Notif.formatTimeRemainingSpec 7 = "Due in 1 weeks" ∧
    Notif.format_time_remaining 7 ≠ Notif.formatTimeRemainingSpec 7 := by decide

/-- Claim C7 amended: the remaining-time string is Due today for 0, Due
tomorrow for 1, Due in N days below 7, then Due in N weeks (N = days div
7) below 30 and Due in N months (N = days div 30) from 30 on, except that
the unit is singular, week or month, when N is exactly 1. -/
theorem c7_amended_formatting (d : Int) (hd : 0 ≤ d) :
    Notif.format_time_remaining d = Notif.formatTimeRemainingAmended d := by
  have e7 : Int.fdiv d 7 = d / 7 := Int.fdiv_eq_ediv _ (by omega)
  have e30 : Int.fdiv d 30 = d / 30 := Int.fdiv_eq_ediv _ (by omega)
  unfold Notif.format_time_remaining Notif.formatTimeRemainingAmended
  rw [e7, e30]
  split_ifs <;> first | rfl | omega

/-- Claim C7 witness: the amended formatting applied at 45 days. -/
theorem c7_witness :
    ((0 : Int) ≤ 45) ∧
    Notif.format_time_remaining 45 = Notif.formatTimeRemainingAmended 45 :=
  ⟨by decide, c7_amended_formatting 45 (by decide)⟩

/-- Claim C8 counterexample: hashing the same password twice produces the
identical stored value — the hash is a pure unsalted SHA-256 digest, so no
two invocations can ever differ, refuting the claim that a fresh random
salt makes repeated hashes distinct. -/
theorem c8_counterexample :
    hash_password "Passw0rd" = hash_password "Passw0rd" ∧
    hash_password "Passw0rd" =
      "ab38eadaeb746599f2c1ee90f8267f31f467347462764a24d71ac1843ee77fe3" :=
  ⟨rfl, by decide⟩

/-- Claim C8 amended: password hashing is deterministic, unsalted,
single-round SHA-256 with no cost factor: the stored value is exactly the
standard SHA-256 hex digest of the password bytes, as the concrete digests
show, and the digest of the word admin equals the admin validation key
hash hard-coded in Login.py. -/
theorem c8_amended_unsalted_sha256 :
    hash_password "Passw0rd" =
      "ab38eadaeb746599f2c1ee90f8267f31f467347462764a24d71ac1843ee77fe3" ∧
    hash_password "123456" =
      "8d969eef6ecad3c29a3a629280e686cf0c3f5d5a86aff3ca12020c923adc6c92" ∧
    hash_password "admin" = ADMIN_VALIDATION_KEY_HASH :=
  ⟨by decide, by decide, by decide⟩

/-- Claim C9 counterexample: an add-task request violating two rules at
once (empty title and status Bogus) raises a ValueError naming only the
first rule; the violated status rule is not reported. -/
theorem c9_counterexample :
    DB.add_task [] "" "Bogus" 5551234567 "2099-01-01" 5551234567 "" "t" =
      .valueError "Task title cannot be empty" ∧
    is_valid_status "Bogus" = false := by decide

/-- Claim C9 amended: the KanbanInfoDatabase.py add_task validates through
Task.validate and fails with one ValueError joining every violated rule,
writing nothing; the Database.py add_task instead raises at the first
violated rule (shown here for the empty-title rule), also writing
nothing. -/
theorem c9_amended_validation :
    (∀ store (t : KInfo.KTask) now, t.validate ≠ [] →
        KInfo.add_task store t now =
          .valueError ("Invalid task data: " ++ String.intercalate "; " t.validate) ∧
        DB.storeAfterAdd store (KInfo.add_task store t now) = store) ∧
    (∀ store title stat pic due cr ai now, pyStrip title = "" →
        DB.add_task store title stat pic due cr ai now =
          .valueError "Task title cannot be empty" ∧
        DB.storeAfterAdd store (DB.add_task store title stat pic due cr ai now) = store) := by
  constructor
  · intro store t now h
    have he : t.validate.isEmpty = false := by
      cases hv : t.validate with
      | nil => exact absurd hv h
      | cons a l => rfl
    have hout : KInfo.add_task store t now =
        .valueError ("Invalid task data: " ++ String.intercalate "; " t.validate) := by
      unfold KInfo.add_task
      rw [he]
      simp only [Bool.false_eq_true, if_false]
    exact ⟨hout, by rw [hout]; rfl⟩
  · intro store title stat pic due cr ai now h
    have hbeq : (pyStrip title == "") = true := by rw [h]; rfl
    have hout : DB.add_task store title stat pic due cr ai now =
        .valueError "Task title cannot be empty" := by
      unfold DB.add_task
      rw [if_pos hbeq]
    exact ⟨hout, by rw [hout]; rfl⟩

/-- Claim C9 witness: the two-rule task fails with both rules listed in the
joined message and nothing written; a whitespace title fails the
Database.py chain at the first rule with nothing written. -/
theorem c9_witness :
    (badTask.validate ≠ [] ∧
      (KInfo.add_task [] badTask "t" =
          .valueError ("Invalid task data: " ++ String.intercalate "; " badTask.validate) ∧
        DB.storeAfterAdd [] (KInfo.add_task [] badTask "t") = []) ∧
      badTask.validate = ["Task title cannot be empty", "Invalid status: Bogus"]) ∧
    (pyStrip " " = "" ∧
      (DB.add_task [] " " "Bogus" 1 "2099-01-01" 1 "" "t" =
          .valueError "Task title cannot be empty" ∧
        DB.storeAfterAdd [] (DB.add_task [] " " "Bogus" 1 "2099-01-01" 1 "" "t") = [])) :=
  ⟨⟨by decide, c9_amended_validation.1 [] badTask "t" (by decide), by decide⟩,
   ⟨by decide, c9_amended_validation.2 [] " " "Bogus" 1 "2099-01-01" 1 "" "t" (by decide)⟩⟩

/-- Claim C10: deleting a task that is already soft-deleted returns False
and changes nothing, for soft and hard deletes alike, because the
existence check goes through get_task_by_id, whose WHERE clause excludes
inactive rows. -/
theorem c10_delete_soft_deleted (store : List TaskRow) (task_id : Nat) (soft : Bool) (now : String)
    (h : ∀ r ∈ store, r.id = task_id → r.isActive = false) :
    DB.delete_task store task_id soft now = (store, false) := by
  have hfind : DB.get_task_by_id store task_id = none := by
    rw [DB.get_task_by_id, List.find?_eq_none]
    intro r hr
    simp only [Bool.and_eq_true, beq_iff_eq, not_and]
    intro hid
    simp [h r hr hid]
  unfold DB.delete_task
  rw [hfind]

/-- Claim C10 witness: a hard delete of a concrete soft-deleted row returns
False and removes nothing. -/
theorem c10_witness :
    (∀ r ∈ [inactiveRow], r.id = 2 → r.isActive = false) ∧
    DB.delete_task [inactiveRow] 2 false "t" = ([inactiveRow], false) :=
  ⟨by decide, c10_delete_soft_deleted [inactiveRow] 2 false "t" (by decide)⟩

end Kanban
